import Mathlib

/-
Verification of the bound-accessor ("property") framework from
source/utilities/Properties.h of the Tenjix Utilities repository.

The C++ classes are shallowly embedded as Lean structures; member functions
become functions on those structures.  Conventions used throughout:

* A raw owner pointer (Owner*) is modelled as Option, where none stands for
  nullptr and some o stands for a pointer to the owner object o.  Because the
  claims under study are about single operations, a pointer stores the
  pointed-to owner object itself; operations that mutate the owner return the
  new owner state.
* runtime_assert (Assertions.h) throws std::runtime_error when its condition
  is false.  Operations that can hit an assertion return
  Except AssertionFailure; Except.error marks the raised assertion.
* Template parameters that are member-function pointers (the getter/setter of
  the delegating properties) become function-valued fields, fixed at
  construction, mirroring that they are fixed at the declaration in C++.
* Reference-returning accessors that expose mutable internal state are
  modelled as a read function together with a write-through function on the
  same slot (a lens on the member the reference designates).
-/

set_option autoImplicit false

namespace Props

/-- Failure raised by the runtime assertion service (Assertions.h): the only
assertion in Properties.h is the null-owner check of PropertyOwner, with the
message that the property owner has not been specified. -/
inductive AssertionFailure where
  | ownerNotSpecified
deriving DecidableEq, Repr

/-- PropertyOwner (Properties.h lines 44-75): wraps the raw back pointer
Owner* pointer, initialised to nullptr. -/
structure PropertyOwner (ω : Type) where
  pointer : Option ω

/-- The private operator=(Owner* owner) of PropertyOwner (lines 51-53): the
body is exactly pointer = owner, with no assertion and no check of the
previous state, so it unconditionally records whatever pointer is passed. -/
def PropertyOwner.assign {ω : Type} (_po : PropertyOwner ω) (owner : Option ω) : PropertyOwner ω :=
  { pointer := owner }

/-- The four conversion operators of PropertyOwner (lines 57-73): each runs
runtime_assert(pointer != nullptr, ...) and then returns the pointer or the
pointee.  All four share this one model, which yields the pointed-to owner. -/
def PropertyOwner.deref {ω : Type} (po : PropertyOwner ω) : Except AssertionFailure ω :=
  match po.pointer with
  | none => Except.error AssertionFailure.ownerNotSpecified
  | some o => Except.ok o

/-- Fresh PropertyOwner: the member is declared with initialiser
Owner* pointer = nullptr (line 49). -/
def PropertyOwner.init {ω : Type} : PropertyOwner ω := { pointer := none }

/-- DataProperty (lines 91-111): owner reference (from BaseProperty)
plus value storage.  ReadonlyProperty, WriteonlyProperty and Property all
virtually inherit this single storage, so one owner slot and one value slot
serve every capability half. -/
structure DataProperty (α ω : Type) where
  owner : PropertyOwner ω
  value : α

/-- DataProperty value constructor (line 102): stores the value; the owner
member is default-initialised to nullptr. -/
def DataProperty.ofValue {α ω : Type} (v : α) : DataProperty α ω :=
  { owner := PropertyOwner.init, value := v }

/-- DataProperty copy constructor (line 105): copies only other.value; the
owner member is default-initialised to nullptr, so the copy is unbound. -/
def DataProperty.copy {α ω : Type} (other : DataProperty α ω) : DataProperty α ω :=
  { owner := PropertyOwner.init, value := other.value }

/-- DataProperty copy assignment (line 108): value = other.value, the owner
member is left untouched. -/
def DataProperty.assignFrom {α ω : Type} (target other : DataProperty α ω) : DataProperty α ω :=
  { target with value := other.value }

/-- Assignment (lines 16-29): a type-erased box holding a closure that will
assign the captured value into a target slot.  The field assign_to models
the stored std function: given the current content of the target slot it
returns the new content. -/
structure Assignment (α : Type) where
  assign_to : α → α

/-- Assignment copy-capture constructor (line 23): the closure performs
target = value, so the target slot afterwards holds the captured value. -/
def Assignment.ofCopy {α : Type} (v : α) : Assignment α :=
  { assign_to := fun _ => v }

/-- Assignment move-capture constructor (line 24): the closure performs
target = move(value); the target slot afterwards holds the captured value
(only the moved-from source differs, which this value model does not track). -/
def Assignment.ofMove {α : Type} (v : α) : Assignment α :=
  { assign_to := fun _ => v }

/-- Assignment to (line 27): runs the stored closure on the target and then
returns a const reference to target itself.  The result pair is (content of
the target slot afterwards, value read through the returned reference); the
returned reference designates the same slot, so the two components agree. -/
def Assignment.to {α : Type} (a : Assignment α) (target : α) : α × α :=
  (a.assign_to target, a.assign_to target)

/-- ReadonlyProperty (lines 123-179): value storage with getter functions,
deriving the Readable tag and virtually DataProperty. -/
structure ReadonlyProperty (α ω : Type) where
  owner : PropertyOwner ω
  value : α

/-- ReadonlyProperty derives the tag class Readable (line 124). -/
def ReadonlyProperty.readableTag : Bool := true

/-- ReadonlyProperty does not derive the tag class Writable (line 124). -/
def ReadonlyProperty.writableTag : Bool := false

/-- ReadonlyProperty value constructor (line 130): stores the value, owner
default-initialised to nullptr. -/
def ReadonlyProperty.ofValue {α ω : Type} (v : α) : ReadonlyProperty α ω :=
  { owner := PropertyOwner.init, value := v }

/-- ReadonlyProperty copy constructor (line 133): delegates to the value
constructor with other.value, so the copy holds the same value and a
default-initialised (null) owner. -/
def ReadonlyProperty.copy {α ω : Type} (other : ReadonlyProperty α ω) : ReadonlyProperty α ω :=
  ReadonlyProperty.ofValue other.value

/-- ReadonlyProperty copy assignment (line 136): value = other.value, owner
untouched. -/
def ReadonlyProperty.assignFrom {α ω : Type} (target other : ReadonlyProperty α ω) : ReadonlyProperty α ω :=
  { target with value := other.value }

/-- ReadonlyProperty get, const overload (line 148): returns the stored
value; no assertion, no owner access. -/
def ReadonlyProperty.get {α ω : Type} (p : ReadonlyProperty α ω) : α :=
  p.value

/-- The non-const get (line 151) returns Type&, a mutable reference to the
value member; writing v through that reference replaces the stored value.
This function is the write half of that reference. -/
def ReadonlyProperty.getRefWrite {α ω : Type} (p : ReadonlyProperty α ω) (v : α) : ReadonlyProperty α ω :=
  { p with value := v }

/-- The non-const call operator (line 143) returns the same Type& reference
to the value member; its write half coincides with that of get. -/
def ReadonlyProperty.callOpRefWrite {α ω : Type} (p : ReadonlyProperty α ω) (v : α) : ReadonlyProperty α ω :=
  { p with value := v }

/-- The non-const conversion operator Type& (line 159) also returns a
mutable reference to the value member; this is its write half. -/
def ReadonlyProperty.convRefWrite {α ω : Type} (p : ReadonlyProperty α ω) (v : α) : ReadonlyProperty α ω :=
  { p with value := v }

/-- WriteonlyProperty (lines 185-241): value storage with setter functions,
deriving the Writable tag and virtually DataProperty. -/
structure WriteonlyProperty (α ω : Type) where
  owner : PropertyOwner ω
  value : α

/-- WriteonlyProperty does not derive the tag class Readable (line 186). -/
def WriteonlyProperty.readableTag : Bool := false

/-- WriteonlyProperty derives the tag class Writable (line 186). -/
def WriteonlyProperty.writableTag : Bool := true

/-- WriteonlyProperty value constructor (line 192). -/
def WriteonlyProperty.ofValue {α ω : Type} (v : α) : WriteonlyProperty α ω :=
  { owner := PropertyOwner.init, value := v }

/-- WriteonlyProperty copy constructor (line 195): copies the value; the
owner of the copy is default-initialised to nullptr. -/
def WriteonlyProperty.copy {α ω : Type} (other : WriteonlyProperty α ω) : WriteonlyProperty α ω :=
  WriteonlyProperty.ofValue other.value

/-- WriteonlyProperty copy assignment (line 198): value = other.value, owner
untouched. -/
def WriteonlyProperty.assignFrom {α ω : Type} (target other : WriteonlyProperty α ω) : WriteonlyProperty α ω :=
  { target with value := other.value }

/-- WriteonlyProperty set (lines 212-217): this->value = value; touches only
the local slot, never the owner reference. -/
def WriteonlyProperty.set {α ω : Type} (p : WriteonlyProperty α ω) (v : α) : WriteonlyProperty α ω :=
  { p with value := v }

/-- WriteonlyProperty call operator (lines 202-209): assigns this->value and
then returns owner, i.e. converts the PropertyOwner member to Owner&, which
asserts that the pointer is non-null.  Result: the updated property paired
with the outcome of that owner conversion. -/
def WriteonlyProperty.callOp {α ω : Type} (p : WriteonlyProperty α ω) (v : α) :
    WriteonlyProperty α ω × Except AssertionFailure ω :=
  ({ p with value := v }, PropertyOwner.deref p.owner)

/-- WriteonlyProperty operator+= (line 228): this->value += value, directly
on the stored slot. -/
def WriteonlyProperty.addAssign {α ω : Type} [Add α] (p : WriteonlyProperty α ω) (v : α) : WriteonlyProperty α ω :=
  { p with value := p.value + v }

/-- WriteonlyProperty operator-= (line 231). -/
def WriteonlyProperty.subAssign {α ω : Type} [Sub α] (p : WriteonlyProperty α ω) (v : α) : WriteonlyProperty α ω :=
  { p with value := p.value - v }

/-- WriteonlyProperty operator*= (line 234). -/
def WriteonlyProperty.mulAssign {α ω : Type} [Mul α] (p : WriteonlyProperty α ω) (v : α) : WriteonlyProperty α ω :=
  { p with value := p.value * v }

/-- WriteonlyProperty operator/= (line 237). -/
def WriteonlyProperty.divAssign {α ω : Type} [Div α] (p : WriteonlyProperty α ω) (v : α) : WriteonlyProperty α ω :=
  { p with value := p.value / v }

/-- Property (lines 247-288): read-write stored property, inheriting both
ReadonlyProperty and WriteonlyProperty over the same virtual DataProperty
base, hence a single owner slot and a single value slot. -/
structure Property (α ω : Type) where
  owner : PropertyOwner ω
  value : α

/-- Property derives Readable through its ReadonlyProperty base. -/
def Property.readableTag : Bool := true

/-- Property derives Writable through its WriteonlyProperty base. -/
def Property.writableTag : Bool := true

/-- Property value constructor (line 254). -/
def Property.ofValue {α ω : Type} (v : α) : Property α ω :=
  { owner := PropertyOwner.init, value := v }

/-- Property copy constructor (line 257): delegates to the value constructor
with other.value, so the copy has a default-initialised (null) owner. -/
def Property.copy {α ω : Type} (other : Property α ω) : Property α ω :=
  Property.ofValue other.value

/-- Property copy assignment (line 260): value = other.value, owner
untouched. -/
def Property.assignFrom {α ω : Type} (target other : Property α ω) : Property α ω :=
  { target with value := other.value }

/-- get inherited from the ReadonlyProperty half (line 148): reads the
shared value slot. -/
def Property.get {α ω : Type} (p : Property α ω) : α :=
  p.value

/-- set inherited from the WriteonlyProperty half (line 212): writes the
shared value slot, owner untouched. -/
def Property.set {α ω : Type} (p : Property α ω) (v : α) : Property α ω :=
  { p with value := v }

/-- Property operator=(Type) (line 267): this->value = value, returning a
reference to the value slot (the new value). -/
def Property.assignValue {α ω : Type} (p : Property α ω) (v : α) : Property α ω :=
  { p with value := v }

/-- Property operator+= (line 275): this->value += value, directly on the
stored slot; returns a reference to the value slot. -/
def Property.addAssign {α ω : Type} [Add α] (p : Property α ω) (v : α) : Property α ω :=
  { p with value := p.value + v }

/-- Property operator-= (line 278). -/
def Property.subAssign {α ω : Type} [Sub α] (p : Property α ω) (v : α) : Property α ω :=
  { p with value := p.value - v }

/-- Property operator*= (line 281). -/
def Property.mulAssign {α ω : Type} [Mul α] (p : Property α ω) (v : α) : Property α ω :=
  { p with value := p.value * v }

/-- Property operator/= (line 284). -/
def Property.divAssign {α ω : Type} [Div α] (p : Property α ω) (v : α) : Property α ω :=
  { p with value := p.value / v }

/-- Model of std shared_ptr (the shared alias of Standard.h): a nullable
pointer into shared storage, identified by its address; handle equality is
address equality, as for std shared_ptr. -/
structure SharedPtr (α : Type) where
  addr : Option Nat
deriving DecidableEq, Repr

/-- shared alias from Standard.h line 41. -/
abbrev shared (α : Type) := SharedPtr α

/-- SharedProperty (lines 298-345): a Property whose stored value is a
shared pointer; get, set and the assignment operators are the inherited
Property members at Type = shared. -/
abbrev SharedProperty (α ω : Type) := Property (shared α) ω

/-- Outcome of a read that may dereference a raw pointer: a defined value,
a checked fatal error raised through the assertion service, or an unchecked
dereference of a null pointer (undefined behaviour in the C++ source). -/
inductive ReadResult (α : Type) where
  | ok (a : α)
  | assertionFailure (e : AssertionFailure)
  | undefinedBehavior
deriving DecidableEq, Repr

/-- Decides whether a read outcome is a checked assertion failure. -/
def ReadResult.isAssertionFailure {α : Type} : ReadResult α → Bool
  | ReadResult.assertionFailure _ => true
  | _ => false

/-- ReadonlyPointerProperty (lines 355-409): holds a raw pointer Type*,
modelled as an optional address into external storage; the value type is the
phantom parameter of the class template. -/
structure ReadonlyPointerProperty (α : Type) where
  pointer : Option Nat

/-- ReadonlyPointerProperty constructor (line 364): stores the passed
pointer, defaulting to nullptr. -/
def ReadonlyPointerProperty.ofPointer {α : Type} (pt : Option Nat) : ReadonlyPointerProperty α :=
  { pointer := pt }

/-- ReadonlyPointerProperty get (lines 367-372): returns the raw pointer
itself, without dereferencing it and without any check. -/
def ReadonlyPointerProperty.get {α : Type} (p : ReadonlyPointerProperty α) : Option Nat :=
  p.pointer

/-- ReadonlyPointerProperty operator* (lines 392-397): the body is exactly
return *pointer, with no assertion; on a null pointer the dereference is
undefined behaviour, on a valid pointer it reads the pointee from the
external storage mem. -/
def ReadonlyPointerProperty.star {α : Type} (p : ReadonlyPointerProperty α) (mem : Nat → α) : ReadResult α :=
  match p.pointer with
  | none => ReadResult.undefinedBehavior
  | some a => ReadResult.ok (mem a)

/-- ReadonlyByValueProperty (lines 419-464): no local storage; the getter
member-function pointer is a template parameter, modelled as a field fixed
at construction; the owner reference comes from BaseProperty. -/
structure ReadonlyByValueProperty (α ω : Type) where
  getter : ω → α
  owner : PropertyOwner ω

/-- ReadonlyByValueProperty derives only the Readable tag (line 420). -/
def ReadonlyByValueProperty.readableTag : Bool := true

/-- Default constructor (line 424): owner default-initialised to nullptr. -/
def ReadonlyByValueProperty.mkNew {α ω : Type} (getter : ω → α) : ReadonlyByValueProperty α ω :=
  { getter := getter, owner := PropertyOwner.init }

/-- Copy constructor (line 426): empty body, so the owner of the copy is
default-initialised to nullptr; the getter is shared, being a template
parameter of the common type. -/
def ReadonlyByValueProperty.copy {α ω : Type} (other : ReadonlyByValueProperty α ω) : ReadonlyByValueProperty α ω :=
  { getter := other.getter, owner := PropertyOwner.init }

/-- Copy assignment (line 429): the body only returns *this, leaving the
target entirely unchanged. -/
def ReadonlyByValueProperty.assignFrom {α ω : Type} (target _other : ReadonlyByValueProperty α ω) : ReadonlyByValueProperty α ω :=
  target

/-- ReadonlyByValueProperty get (lines 441-446): (owner->*getter)().  The
owner member is first converted to a pointer, which asserts non-null, and
only then is the getter invoked on the pointee. -/
def ReadonlyByValueProperty.get {α ω : Type} (p : ReadonlyByValueProperty α ω) : Except AssertionFailure α :=
  match PropertyOwner.deref p.owner with
  | Except.error e => Except.error e
  | Except.ok o => Except.ok (p.getter o)

/-- WriteonlyByValueProperty (lines 470-499): no local storage; the setter
member-function pointer is a template parameter, modelled as a field; the
setter mutates the owner, so it maps an owner state to a new owner state. -/
structure WriteonlyByValueProperty (α ω : Type) where
  setter : ω → α → ω
  owner : PropertyOwner ω

/-- Default constructor (line 475): owner default-initialised to nullptr. -/
def WriteonlyByValueProperty.mkNew {α ω : Type} (setter : ω → α → ω) : WriteonlyByValueProperty α ω :=
  { setter := setter, owner := PropertyOwner.init }

/-- WriteonlyByValueProperty set (line 490): (owner->*setter)(value); the
owner conversion asserts non-null before the setter runs; the result is the
new owner state. -/
def WriteonlyByValueProperty.set {α ω : Type} (p : WriteonlyByValueProperty α ω) (v : α) : Except AssertionFailure ω :=
  match PropertyOwner.deref p.owner with
  | Except.error e => Except.error e
  | Except.ok o => Except.ok (p.setter o v)

/-- ByValueProperty (lines 505-545): read-write delegating property,
inheriting ReadonlyByValueProperty and WriteonlyByValueProperty over the
same virtual BaseProperty, hence one shared owner slot. -/
structure ByValueProperty (α ω : Type) where
  getter : ω → α
  setter : ω → α → ω
  owner : PropertyOwner ω

/-- Default constructor (line 510): owner default-initialised to nullptr. -/
def ByValueProperty.mkNew {α ω : Type} (getter : ω → α) (setter : ω → α → ω) : ByValueProperty α ω :=
  { getter := getter, setter := setter, owner := PropertyOwner.init }

/-- get inherited from ReadonlyByValueProperty (line 441): asserts a
non-null owner, then invokes the getter on the pointee. -/
def ByValueProperty.get {α ω : Type} (p : ByValueProperty α ω) : Except AssertionFailure α :=
  match PropertyOwner.deref p.owner with
  | Except.error e => Except.error e
  | Except.ok o => Except.ok (p.getter o)

/-- set inherited from WriteonlyByValueProperty (line 490): asserts a
non-null owner, then invokes the setter; result is the new owner state. -/
def ByValueProperty.set {α ω : Type} (p : ByValueProperty α ω) (v : α) : Except AssertionFailure ω :=
  match PropertyOwner.deref p.owner with
  | Except.error e => Except.error e
  | Except.ok o => Except.ok (p.setter o v)

/-- ByValueProperty operator= (line 522): (owner->*setter)(value) followed
by return get(); the second read goes through the same owner pointer, whose
pointee the setter has just updated.  Result: new owner state and the value
returned by the trailing get. -/
def ByValueProperty.assignOp {α ω : Type} (p : ByValueProperty α ω) (v : α) : Except AssertionFailure (ω × α) :=
  match PropertyOwner.deref p.owner with
  | Except.error e => Except.error e
  | Except.ok o =>
    let o2 := p.setter o v
    Except.ok (o2, p.getter o2)

/-- ByValueProperty operator+= (line 528): set(get() + value); return
get(); modelled with the owner pointee threaded through the setter. -/
def ByValueProperty.addAssign {α ω : Type} [Add α] (p : ByValueProperty α ω) (v : α) : Except AssertionFailure (ω × α) :=
  match PropertyOwner.deref p.owner with
  | Except.error e => Except.error e
  | Except.ok o =>
    let o2 := p.setter o (p.getter o + v)
    Except.ok (o2, p.getter o2)

/-- ByValueProperty operator-= (line 532). -/
def ByValueProperty.subAssign {α ω : Type} [Sub α] (p : ByValueProperty α ω) (v : α) : Except AssertionFailure (ω × α) :=
  match PropertyOwner.deref p.owner with
  | Except.error e => Except.error e
  | Except.ok o =>
    let o2 := p.setter o (p.getter o - v)
    Except.ok (o2, p.getter o2)

/-- ByValueProperty operator*= (line 536). -/
def ByValueProperty.mulAssign {α ω : Type} [Mul α] (p : ByValueProperty α ω) (v : α) : Except AssertionFailure (ω × α) :=
  match PropertyOwner.deref p.owner with
  | Except.error e => Except.error e
  | Except.ok o =>
    let o2 := p.setter o (p.getter o * v)
    Except.ok (o2, p.getter o2)

/-- ByValueProperty operator/= (line 540). -/
def ByValueProperty.divAssign {α ω : Type} [Div α] (p : ByValueProperty α ω) (v : α) : Except AssertionFailure (ω × α) :=
  match PropertyOwner.deref p.owner with
  | Except.error e => Except.error e
  | Except.ok o =>
    let o2 := p.setter o (p.getter o / v)
    Except.ok (o2, p.getter o2)

/-- ReadonlyByReferenceProperty (lines 555-600): delegating read through a
getter returning by reference; as a value model the getter yields the value
of the referenced owner field. -/
structure ReadonlyByReferenceProperty (α ω : Type) where
  getter : ω → α
  owner : PropertyOwner ω

/-- Default constructor (line 560): owner default-initialised to nullptr. -/
def ReadonlyByReferenceProperty.mkNew {α ω : Type} (getter : ω → α) : ReadonlyByReferenceProperty α ω :=
  { getter := getter, owner := PropertyOwner.init }

/-- ReadonlyByReferenceProperty get (lines 577-582): (owner->*getter)();
owner conversion asserts non-null before the getter call. -/
def ReadonlyByReferenceProperty.get {α ω : Type} (p : ReadonlyByReferenceProperty α ω) : Except AssertionFailure α :=
  match PropertyOwner.deref p.owner with
  | Except.error e => Except.error e
  | Except.ok o => Except.ok (p.getter o)

/-- WriteonlyByReferenceProperty (lines 606-645): delegating write through a
setter taking an Assignment carrier. -/
structure WriteonlyByReferenceProperty (α ω : Type) where
  setter : ω → Assignment α → ω
  owner : PropertyOwner ω

/-- Default constructor (line 611): owner default-initialised to nullptr. -/
def WriteonlyByReferenceProperty.mkNew {α ω : Type} (setter : ω → Assignment α → ω) : WriteonlyByReferenceProperty α ω :=
  { setter := setter, owner := PropertyOwner.init }

/-- WriteonlyByReferenceProperty set (lines 630-635): the value is wrapped
in an Assignment carrier (copy capture for the lvalue overload, move capture
for the rvalue overload, identical in this value model) and handed to
(owner->*setter); the owner conversion asserts non-null first. -/
def WriteonlyByReferenceProperty.set {α ω : Type} (p : WriteonlyByReferenceProperty α ω) (v : α) : Except AssertionFailure ω :=
  match PropertyOwner.deref p.owner with
  | Except.error e => Except.error e
  | Except.ok o => Except.ok (p.setter o (Assignment.ofCopy v))

/-- ByReferenceProperty (lines 651-711): read-write delegating property over
the by-reference halves, with one shared owner slot via the virtual base. -/
structure ByReferenceProperty (α ω : Type) where
  getter : ω → α
  setter : ω → Assignment α → ω
  owner : PropertyOwner ω

/-- Default constructor (line 656): owner default-initialised to nullptr. -/
def ByReferenceProperty.mkNew {α ω : Type} (getter : ω → α) (setter : ω → Assignment α → ω) : ByReferenceProperty α ω :=
  { getter := getter, setter := setter, owner := PropertyOwner.init }

/-- get inherited from ReadonlyByReferenceProperty (line 577). -/
def ByReferenceProperty.get {α ω : Type} (p : ByReferenceProperty α ω) : Except AssertionFailure α :=
  match PropertyOwner.deref p.owner with
  | Except.error e => Except.error e
  | Except.ok o => Except.ok (p.getter o)

/-- set inherited from WriteonlyByReferenceProperty (line 630). -/
def ByReferenceProperty.set {α ω : Type} (p : ByReferenceProperty α ω) (v : α) : Except AssertionFailure ω :=
  match PropertyOwner.deref p.owner with
  | Except.error e => Except.error e
  | Except.ok o => Except.ok (p.setter o (Assignment.ofCopy v))

/-- ByReferenceProperty operator= (line 668): (owner->*setter)(value) then
return get(), reading through the updated pointee. -/
def ByReferenceProperty.assignOp {α ω : Type} (p : ByReferenceProperty α ω) (v : α) : Except AssertionFailure (ω × α) :=
  match PropertyOwner.deref p.owner with
  | Except.error e => Except.error e
  | Except.ok o =>
    let o2 := p.setter o (Assignment.ofCopy v)
    Except.ok (o2, p.getter o2)

/-- ByReferenceProperty operator+= (line 678): set(get() + value); return
get(). -/
def ByReferenceProperty.addAssign {α ω : Type} [Add α] (p : ByReferenceProperty α ω) (v : α) : Except AssertionFailure (ω × α) :=
  match PropertyOwner.deref p.owner with
  | Except.error e => Except.error e
  | Except.ok o =>
    let o2 := p.setter o (Assignment.ofCopy (p.getter o + v))
    Except.ok (o2, p.getter o2)

/-- ByReferenceProperty operator-= (line 686). -/
def ByReferenceProperty.subAssign {α ω : Type} [Sub α] (p : ByReferenceProperty α ω) (v : α) : Except AssertionFailure (ω × α) :=
  match PropertyOwner.deref p.owner with
  | Except.error e => Except.error e
  | Except.ok o =>
    let o2 := p.setter o (Assignment.ofCopy (p.getter o - v))
    Except.ok (o2, p.getter o2)

/-- ByReferenceProperty operator*= (line 694). -/
def ByReferenceProperty.mulAssign {α ω : Type} [Mul α] (p : ByReferenceProperty α ω) (v : α) : Except AssertionFailure (ω × α) :=
  match PropertyOwner.deref p.owner with
  | Except.error e => Except.error e
  | Except.ok o =>
    let o2 := p.setter o (Assignment.ofCopy (p.getter o * v))
    Except.ok (o2, p.getter o2)

/-- ByReferenceProperty operator/= (line 702). -/
def ByReferenceProperty.divAssign {α ω : Type} [Div α] (p : ByReferenceProperty α ω) (v : α) : Except AssertionFailure (ω × α) :=
  match PropertyOwner.deref p.owner with
  | Except.error e => Except.error e
  | Except.ok o =>
    let o2 := p.setter o (Assignment.ofCopy (p.getter o / v))
    Except.ok (o2, p.getter o2)

/-- The Readable tag (line 38) as a capability interface: the common
operators of lines 717-745 are templates over any class deriving Readable
and only ever call its get member.  An instance provides that get. -/
class Readable (σ : Type) (α : outParam Type) where
  rget : σ → Except AssertionFailure α

/-- ReadonlyProperty derives Readable; its get returns the stored value and
cannot fail. -/
instance {α ω : Type} : Readable (ReadonlyProperty α ω) α :=
  { rget := fun p => Except.ok (ReadonlyProperty.get p) }

/-- Property derives Readable through its ReadonlyProperty half. -/
instance {α ω : Type} : Readable (Property α ω) α :=
  { rget := fun p => Except.ok (Property.get p) }

/-- ReadonlyByValueProperty derives Readable; its get asserts a bound owner
and then calls the getter. -/
instance {α ω : Type} : Readable (ReadonlyByValueProperty α ω) α :=
  { rget := ReadonlyByValueProperty.get }

/-- ReadonlyByReferenceProperty derives Readable. -/
instance {α ω : Type} : Readable (ReadonlyByReferenceProperty α ω) α :=
  { rget := ReadonlyByReferenceProperty.get }

/-- ByValueProperty derives Readable through its read-only half. -/
instance {α ω : Type} : Readable (ByValueProperty α ω) α :=
  { rget := ByValueProperty.get }

/-- ByReferenceProperty derives Readable through its read-only half. -/
instance {α ω : Type} : Readable (ByReferenceProperty α ω) α :=
  { rget := ByReferenceProperty.get }

/-- The stream output operator (lines 718-721), defined once for every
Readable property: output << property.get().  Streams are modelled as the
accumulated text; render is the ostream insertion of the value type. -/
def streamOut {σ α : Type} [Readable σ α] (render : α → String) (out : String) (p : σ) : Except AssertionFailure String :=
  match Readable.rget p with
  | Except.error e => Except.error e
  | Except.ok v => Except.ok (out ++ render v)

/-- String concatenation text + property (lines 724-727), defined once for
every Readable property: text + to_string(property.get()). -/
def strConcatLeft {σ α : Type} [Readable σ α] (render : α → String) (text : String) (p : σ) : Except AssertionFailure String :=
  match Readable.rget p with
  | Except.error e => Except.error e
  | Except.ok v => Except.ok (text ++ render v)

/-- String concatenation property + text (lines 730-733). -/
def strConcatRight {σ α : Type} [Readable σ α] (render : α → String) (p : σ) (text : String) : Except AssertionFailure String :=
  match Readable.rget p with
  | Except.error e => Except.error e
  | Except.ok v => Except.ok (render v ++ text)

-- ==================================================================================================
-- Theorems
-- ==================================================================================================

/-- Claim C1, counterexample: the binding operation (the private operator= of
PropertyOwner, lines 51-53) contains no assertion at all, so binding an
already bound accessor with a second non-null owner does not fail: it
silently records the second owner.  Likewise a null reference is recorded
without any failure. -/
theorem bind_twice_silently_overwrites_counterexample :
    (PropertyOwner.assign (PropertyOwner.assign (PropertyOwner.init : PropertyOwner Nat) (some 1)) (some 2)).pointer = some 2
    ∧ (PropertyOwner.assign (⟨some 1⟩ : PropertyOwner Nat) none).pointer = none :=
  ⟨rfl, rfl⟩

/-- Claim C1, amended: the binding operation unconditionally records the
passed reference, whatever the previous state and whether or not the
reference is null; no check is performed at bind time.  The fatal assertion
of the Assertion Service fires only later, when the owner is accessed
through one of the conversion operators while the pointer is still null;
after binding a non-null owner that access succeeds. -/
theorem bind_records_unconditionally :
    (∀ (ω : Type) (po : PropertyOwner ω) (r : Option ω), (po.assign r).pointer = r)
    ∧ (∀ (ω : Type), (PropertyOwner.init : PropertyOwner ω).deref = Except.error AssertionFailure.ownerNotSpecified)
    ∧ (∀ (ω : Type) (po : PropertyOwner ω) (o : ω), (po.assign (some o)).deref = Except.ok o) :=
  ⟨fun _ _ _ => rfl, fun _ => rfl, fun _ _ _ => rfl⟩

/-- Claim C2: every get or set on an unbound delegating accessor (by-value
or by-reference, read-only, write-only or read-write) fails with the
assertion that the owner has not been specified.  The result is the same
for every getter and setter, since the owner conversion asserts before the
getter or setter could run, and it is an error, never a default value. -/
theorem delegating_unbound_access_fails {α ω : Type}
    (p1 : ReadonlyByValueProperty α ω) (h1 : p1.owner.pointer = none)
    (p2 : WriteonlyByValueProperty α ω) (h2 : p2.owner.pointer = none)
    (p3 : ReadonlyByReferenceProperty α ω) (h3 : p3.owner.pointer = none)
    (p4 : WriteonlyByReferenceProperty α ω) (h4 : p4.owner.pointer = none)
    (p5 : ByValueProperty α ω) (h5 : p5.owner.pointer = none)
    (p6 : ByReferenceProperty α ω) (h6 : p6.owner.pointer = none)
    (v : α) :
    p1.get = Except.error AssertionFailure.ownerNotSpecified
    ∧ p2.set v = Except.error AssertionFailure.ownerNotSpecified
    ∧ p3.get = Except.error AssertionFailure.ownerNotSpecified
    ∧ p4.set v = Except.error AssertionFailure.ownerNotSpecified
    ∧ p5.get = Except.error AssertionFailure.ownerNotSpecified
    ∧ p5.set v = Except.error AssertionFailure.ownerNotSpecified
    ∧ p6.get = Except.error AssertionFailure.ownerNotSpecified
    ∧ p6.set v = Except.error AssertionFailure.ownerNotSpecified := by
  refine ⟨?_, ?_, ?_, ?_, ?_, ?_, ?_, ?_⟩ <;>
    simp [ReadonlyByValueProperty.get, WriteonlyByValueProperty.set,
      ReadonlyByReferenceProperty.get, WriteonlyByReferenceProperty.set,
      ByValueProperty.get, ByValueProperty.set, ByReferenceProperty.get,
      ByReferenceProperty.set, PropertyOwner.deref, h1, h2, h3, h4, h5, h6]

/-- Claim C2, witness: freshly constructed delegating accessors of each
variant, with concrete getters and setters, all fail on get or set. -/
theorem delegating_unbound_access_fails_witness :
    (ReadonlyByValueProperty.mkNew (fun (o : Nat) => o + 1)).get = Except.error AssertionFailure.ownerNotSpecified
    ∧ (WriteonlyByValueProperty.mkNew (fun (o v : Nat) => o + v)).set 7 = Except.error AssertionFailure.ownerNotSpecified
    ∧ (ReadonlyByReferenceProperty.mkNew (fun (o : Nat) => o)).get = Except.error AssertionFailure.ownerNotSpecified
    ∧ (WriteonlyByReferenceProperty.mkNew (fun (o : Nat) (a : Assignment Nat) => (a.to o).1)).set 7 = Except.error AssertionFailure.ownerNotSpecified
    ∧ (ByValueProperty.mkNew (fun (o : Nat) => o) (fun (_ v : Nat) => v)).get = Except.error AssertionFailure.ownerNotSpecified
    ∧ (ByValueProperty.mkNew (fun (o : Nat) => o) (fun (_ v : Nat) => v)).set 7 = Except.error AssertionFailure.ownerNotSpecified
    ∧ (ByReferenceProperty.mkNew (fun (o : Nat) => o) (fun (o : Nat) (a : Assignment Nat) => (a.to o).1)).get = Except.error AssertionFailure.ownerNotSpecified
    ∧ (ByReferenceProperty.mkNew (fun (o : Nat) => o) (fun (o : Nat) (a : Assignment Nat) => (a.to o).1)).set 7 = Except.error AssertionFailure.ownerNotSpecified :=
  delegating_unbound_access_fails
    (ReadonlyByValueProperty.mkNew (fun (o : Nat) => o + 1)) rfl
    (WriteonlyByValueProperty.mkNew (fun (o v : Nat) => o + v)) rfl
    (ReadonlyByReferenceProperty.mkNew (fun (o : Nat) => o)) rfl
    (WriteonlyByReferenceProperty.mkNew (fun (o : Nat) (a : Assignment Nat) => (a.to o).1)) rfl
    (ByValueProperty.mkNew (fun (o : Nat) => o) (fun (_ v : Nat) => v)) rfl
    (ByReferenceProperty.mkNew (fun (o : Nat) => o) (fun (o : Nat) (a : Assignment Nat) => (a.to o).1)) rfl
    7

/-- Claim C3: for the stored read-write Property and for SharedProperty,
set followed by get returns the value just set, for every property state,
bound or not, and set leaves the owner reference untouched, so no owner
binding is involved in either operation. -/
theorem stored_shared_set_get_roundtrip :
    (∀ (α ω : Type) (p : Property α ω) (v : α), (p.set v).get = v ∧ (p.set v).owner = p.owner)
    ∧ (∀ (β ω : Type) (sp : SharedProperty β ω) (h : shared β), (sp.set h).get = h ∧ (sp.set h).owner = sp.owner) :=
  ⟨fun _ _ _ _ => ⟨rfl, rfl⟩, fun _ _ _ _ => ⟨rfl, rfl⟩⟩

/-- Claim C4, counterexample: reading a null ReadonlyPointerProperty through
operator* is an unchecked dereference of the absent pointer: it does not
raise through the assertion service, because the body of operator* (line
393) performs no check at all; and get simply hands back the null pointer. -/
theorem nullAlias_star_unchecked_counterexample :
    (ReadonlyPointerProperty.ofPointer none : ReadonlyPointerProperty Nat).star (fun _ => 0) = ReadResult.undefinedBehavior
    ∧ ((ReadonlyPointerProperty.ofPointer none : ReadonlyPointerProperty Nat).star (fun _ => 0)).isAssertionFailure = false
    ∧ (ReadonlyPointerProperty.ofPointer none : ReadonlyPointerProperty Nat).get = none :=
  ⟨rfl, rfl, rfl⟩

/-- Claim C4, amended: for every PointerAlias accessor whose pointer was
never set, a read through operator* is an unchecked dereference (undefined
behaviour), not a checked fatal error, and get returns the null pointer
without dereferencing and without failing; no assertion is raised on either
path. -/
theorem nullAlias_read_unchecked {α : Type} (p : ReadonlyPointerProperty α) (mem : Nat → α)
    (h : p.pointer = none) :
    p.star mem = ReadResult.undefinedBehavior
    ∧ (p.star mem).isAssertionFailure = false
    ∧ p.get = none := by
  simp [ReadonlyPointerProperty.star, ReadonlyPointerProperty.get, h,
    ReadResult.isAssertionFailure]

/-- Claim C4, witness for the amended statement at a concrete null alias. -/
theorem nullAlias_read_unchecked_witness :
    (ReadonlyPointerProperty.ofPointer none : ReadonlyPointerProperty Bool).star (fun _ => true) = ReadResult.undefinedBehavior
    ∧ ((ReadonlyPointerProperty.ofPointer none : ReadonlyPointerProperty Bool).star (fun _ => true)).isAssertionFailure = false
    ∧ (ReadonlyPointerProperty.ofPointer none : ReadonlyPointerProperty Bool).get = none :=
  nullAlias_read_unchecked (ReadonlyPointerProperty.ofPointer none) (fun _ => true) rfl

/-- Claim C5, counterexample: compound mutation operators are not reserved
to read-write accessors: the stored write-only accessor WriteonlyProperty,
which derives only the Writable tag and no Readable capability, defines
operator+= (line 228), and applying it mutates the hidden stored value in
the expected way. -/
theorem writeonly_compound_op_counterexample :
    WriteonlyProperty.readableTag = false
    ∧ WriteonlyProperty.writableTag = true
    ∧ ((WriteonlyProperty.ofValue 3 : WriteonlyProperty Nat Unit).addAssign 5).value = 8 :=
  ⟨rfl, rfl, rfl⟩

/-- Claim C5, amended: for every accessor with compound mutation operators
and an arithmetic value type, x op= v is observably equivalent to
x = x.get() op v.  For the stored read-write Property each compound
operator equals the plain value assignment of get() op v, and afterwards
get returns the previous value combined with v; for the delegating
read-write accessors each compound operator is the program that reads get()
and then runs operator= with get() op v; for the stored write-only accessor
the operators are also defined and update the hidden slot by set of the
previous value combined with v. -/
theorem compound_ops_equiv_set_get {α ω : Type} [Add α] [Sub α] [Mul α] [Div α] :
    (∀ (p : Property α ω) (v : α),
        (p.addAssign v = p.assignValue (p.get + v) ∧ (p.addAssign v).get = p.get + v)
      ∧ (p.subAssign v = p.assignValue (p.get - v) ∧ (p.subAssign v).get = p.get - v)
      ∧ (p.mulAssign v = p.assignValue (p.get * v) ∧ (p.mulAssign v).get = p.get * v)
      ∧ (p.divAssign v = p.assignValue (p.get / v) ∧ (p.divAssign v).get = p.get / v))
    ∧ (∀ (p : WriteonlyProperty α ω) (v : α),
        p.addAssign v = p.set (p.value + v)
      ∧ p.subAssign v = p.set (p.value - v)
      ∧ p.mulAssign v = p.set (p.value * v)
      ∧ p.divAssign v = p.set (p.value / v))
    ∧ (∀ (p : ByValueProperty α ω) (v : α),
        p.addAssign v = Except.bind p.get (fun g => p.assignOp (g + v))
      ∧ p.subAssign v = Except.bind p.get (fun g => p.assignOp (g - v))
      ∧ p.mulAssign v = Except.bind p.get (fun g => p.assignOp (g * v))
      ∧ p.divAssign v = Except.bind p.get (fun g => p.assignOp (g / v)))
    ∧ (∀ (p : ByReferenceProperty α ω) (v : α),
        p.addAssign v = Except.bind p.get (fun g => p.assignOp (g + v))
      ∧ p.subAssign v = Except.bind p.get (fun g => p.assignOp (g - v))
      ∧ p.mulAssign v = Except.bind p.get (fun g => p.assignOp (g * v))
      ∧ p.divAssign v = Except.bind p.get (fun g => p.assignOp (g / v))) := by
  refine ⟨fun p v => ⟨⟨rfl, rfl⟩, ⟨rfl, rfl⟩, ⟨rfl, rfl⟩, ⟨rfl, rfl⟩⟩,
    fun p v => ⟨rfl, rfl, rfl, rfl⟩, fun p v => ?_, fun p v => ?_⟩ <;>
  · refine ⟨?_, ?_, ?_, ?_⟩ <;>
    · cases hp : p.owner.pointer <;>
        simp [ByValueProperty.get, ByValueProperty.assignOp, ByValueProperty.addAssign,
          ByValueProperty.subAssign, ByValueProperty.mulAssign, ByValueProperty.divAssign,
          ByReferenceProperty.get, ByReferenceProperty.assignOp, ByReferenceProperty.addAssign,
          ByReferenceProperty.subAssign, ByReferenceProperty.mulAssign, ByReferenceProperty.divAssign,
          PropertyOwner.deref, hp, Except.bind]

/-- Claim C6: on the stored write-only accessor, plain set succeeds with no
owner binding and mutates only the local slot, leaving the owner reference
unchanged; the chaining call operator also stores the value but returns the
owner reference, which fails with the null-owner assertion when the
accessor is unbound and yields the owner when it is bound. -/
theorem stored_set_vs_chaining_call {α ω : Type} :
    (∀ (p : WriteonlyProperty α ω) (v : α), (p.set v).value = v ∧ (p.set v).owner = p.owner)
    ∧ (∀ (p : WriteonlyProperty α ω) (v : α), p.owner.pointer = none →
        (p.callOp v).2 = Except.error AssertionFailure.ownerNotSpecified ∧ (p.callOp v).1.value = v)
    ∧ (∀ (p : WriteonlyProperty α ω) (v : α) (o : ω), p.owner.pointer = some o →
        (p.callOp v).2 = Except.ok o ∧ (p.callOp v).1.value = v) := by
  refine ⟨fun p v => ⟨rfl, rfl⟩, fun p v h => ?_, fun p v o h => ?_⟩ <;>
    simp [WriteonlyProperty.callOp, PropertyOwner.deref, h]

/-- Claim C6, witness: a concrete unbound stored write-only accessor, where
set succeeds and the chaining call fails, and a concrete bound one, where
the chaining call returns the owner. -/
theorem stored_set_vs_chaining_call_witness :
    (((WriteonlyProperty.ofValue 0 : WriteonlyProperty Nat Nat).set 5).value = 5
      ∧ ((WriteonlyProperty.ofValue 0 : WriteonlyProperty Nat Nat).set 5).owner = (WriteonlyProperty.ofValue 0 : WriteonlyProperty Nat Nat).owner)
    ∧ (((WriteonlyProperty.ofValue 0 : WriteonlyProperty Nat Nat).callOp 5).2 = Except.error AssertionFailure.ownerNotSpecified
      ∧ ((WriteonlyProperty.ofValue 0 : WriteonlyProperty Nat Nat).callOp 5).1.value = 5)
    ∧ (((⟨⟨some 9⟩, 0⟩ : WriteonlyProperty Nat Nat).callOp 5).2 = Except.ok 9
      ∧ ((⟨⟨some 9⟩, 0⟩ : WriteonlyProperty Nat Nat).callOp 5).1.value = 5) :=
  ⟨stored_set_vs_chaining_call.1 (WriteonlyProperty.ofValue 0) 5,
   stored_set_vs_chaining_call.2.1 (WriteonlyProperty.ofValue 0) 5 rfl,
   stored_set_vs_chaining_call.2.2 (⟨⟨some 9⟩, 0⟩ : WriteonlyProperty Nat Nat) 5 9 rfl⟩

/-- Claim C7: the generic Readable operators write exactly get(), so two
accessors whose reads yield equal values produce identical text under
stream output and under string concatenation on either side, regardless of
the storage strategies backing them. -/
theorem readable_stream_output_erases_strategy {σ τ α : Type} [Readable σ α] [Readable τ α]
    (render : α → String) (out text : String) (p : σ) (q : τ) (v : α)
    (hp : Readable.rget p = Except.ok v) (hq : Readable.rget q = Except.ok v) :
    streamOut render out p = streamOut render out q
    ∧ strConcatLeft render text p = strConcatLeft render text q
    ∧ strConcatRight render p text = strConcatRight render q text := by
  refine ⟨?_, ?_, ?_⟩ <;> simp [streamOut, strConcatLeft, strConcatRight, hp, hq]

/-- Claim C7, witness: a stored ReadonlyProperty holding the string x and a
bound delegating ReadonlyByValueProperty whose getter returns x print
identically. -/
theorem readable_stream_output_erases_strategy_witness :
    streamOut (fun (s : String) => s) "out " (ReadonlyProperty.ofValue "x" : ReadonlyProperty String Unit)
      = streamOut (fun (s : String) => s) "out " (⟨fun _ => "x", ⟨some ()⟩⟩ : ReadonlyByValueProperty String Unit)
    ∧ strConcatLeft (fun (s : String) => s) "t " (ReadonlyProperty.ofValue "x" : ReadonlyProperty String Unit)
      = strConcatLeft (fun (s : String) => s) "t " (⟨fun _ => "x", ⟨some ()⟩⟩ : ReadonlyByValueProperty String Unit)
    ∧ strConcatRight (fun (s : String) => s) (ReadonlyProperty.ofValue "x" : ReadonlyProperty String Unit) "t "
      = strConcatRight (fun (s : String) => s) (⟨fun _ => "x", ⟨some ()⟩⟩ : ReadonlyByValueProperty String Unit) "t " :=
  readable_stream_output_erases_strategy (fun s => s) "out " "t "
    (ReadonlyProperty.ofValue "x" : ReadonlyProperty String Unit)
    (⟨fun _ => "x", ⟨some ()⟩⟩ : ReadonlyByValueProperty String Unit) "x" rfl rfl

/-- Claim C8: the Assignment carrier, built from a value by copy or by move
capture, deposits that value into the destination slot when to is called:
the slot afterwards holds the value, and the reference returned by to
designates that same slot, so reading it gives the same content. -/
theorem assignment_to_deposits_value :
    ∀ (α : Type) (v t : α),
      ((Assignment.ofCopy v).to t).1 = v
      ∧ ((Assignment.ofCopy v).to t).2 = ((Assignment.ofCopy v).to t).1
      ∧ ((Assignment.ofMove v).to t).1 = v
      ∧ ((Assignment.ofMove v).to t).2 = ((Assignment.ofMove v).to t).1 :=
  fun _ _ _ => ⟨rfl, rfl, rfl, rfl⟩

/-- Claim C9: copy construction of any property kind yields an unbound copy
(the owner pointer of the copy is null) while the stored value, when there
is one, is copied; copy assignment transfers only the stored value and
leaves the owner reference of the target untouched, and for the storage-free
delegating kind it changes nothing at all. -/
theorem copies_never_propagate_binding :
    (∀ (α ω : Type) (p : DataProperty α ω), (DataProperty.copy p).owner.pointer = none ∧ (DataProperty.copy p).value = p.value)
    ∧ (∀ (α ω : Type) (t s : DataProperty α ω), (DataProperty.assignFrom t s).owner = t.owner ∧ (DataProperty.assignFrom t s).value = s.value)
    ∧ (∀ (α ω : Type) (p : ReadonlyProperty α ω), (ReadonlyProperty.copy p).owner.pointer = none ∧ (ReadonlyProperty.copy p).value = p.value)
    ∧ (∀ (α ω : Type) (t s : ReadonlyProperty α ω), (ReadonlyProperty.assignFrom t s).owner = t.owner ∧ (ReadonlyProperty.assignFrom t s).value = s.value)
    ∧ (∀ (α ω : Type) (p : WriteonlyProperty α ω), (WriteonlyProperty.copy p).owner.pointer = none ∧ (WriteonlyProperty.copy p).value = p.value)
    ∧ (∀ (α ω : Type) (t s : WriteonlyProperty α ω), (WriteonlyProperty.assignFrom t s).owner = t.owner ∧ (WriteonlyProperty.assignFrom t s).value = s.value)
    ∧ (∀ (α ω : Type) (p : Property α ω), (Property.copy p).owner.pointer = none ∧ (Property.copy p).value = p.value)
    ∧ (∀ (α ω : Type) (t s : Property α ω), (Property.assignFrom t s).owner = t.owner ∧ (Property.assignFrom t s).value = s.value)
    ∧ (∀ (β ω : Type) (sp : SharedProperty β ω), (Property.copy sp).owner.pointer = none ∧ (Property.copy sp).value = sp.value)
    ∧ (∀ (α ω : Type) (p : ReadonlyByValueProperty α ω), (ReadonlyByValueProperty.copy p).owner.pointer = none)
    ∧ (∀ (α ω : Type) (t s : ReadonlyByValueProperty α ω), ReadonlyByValueProperty.assignFrom t s = t) :=
  ⟨fun _ _ _ => ⟨rfl, rfl⟩, fun _ _ _ _ => ⟨rfl, rfl⟩,
   fun _ _ _ => ⟨rfl, rfl⟩, fun _ _ _ _ => ⟨rfl, rfl⟩,
   fun _ _ _ => ⟨rfl, rfl⟩, fun _ _ _ _ => ⟨rfl, rfl⟩,
   fun _ _ _ => ⟨rfl, rfl⟩, fun _ _ _ _ => ⟨rfl, rfl⟩,
   fun _ _ _ => ⟨rfl, rfl⟩,
   fun _ _ _ => rfl, fun _ _ _ _ => rfl⟩

/-- Claim C10: the non-const get, call operator and conversion operator of
the stored read-only accessor all hand out the same mutable reference to
the internal value slot: writing v through any of them makes every
subsequent get return v, without touching the owner, although the class has
the Readable tag only and no Writable capability. -/
theorem readonly_exposes_mutable_storage :
    (∀ (α ω : Type) (p : ReadonlyProperty α ω) (v : α),
        (p.getRefWrite v).get = v
      ∧ (p.callOpRefWrite v).get = v
      ∧ (p.convRefWrite v).get = v
      ∧ (p.getRefWrite v).owner = p.owner
      ∧ p.callOpRefWrite v = p.getRefWrite v
      ∧ p.convRefWrite v = p.getRefWrite v)
    ∧ ReadonlyProperty.readableTag = true
    ∧ ReadonlyProperty.writableTag = false :=
  ⟨fun _ _ _ _ => ⟨rfl, rfl, rfl, rfl, rfl, rfl⟩, rfl, rfl⟩

end Props
